import Mathlib

/-!
Shallow embedding of lxc console.c (container console multiplexer).

Each definition mirrors one C function of src/dependencies/lxc/src/lxc/console.c.
Kernel-level side conditions (whether a descriptor is a tty, whether openpty,
sigprocmask, signalfd, malloc or a write succeed) are passed in as explicit
environment values, and descriptor traffic is returned as explicit event lists.
-/

/-! ### Terminal modes: setup_tios (console.c lines 305-337) -/

/-- Input-flag bit IGNBRK (asm-generic termbits). -/
def IGNBRK : Nat := 1

/-- Input-flag bit BRKINT (asm-generic termbits). -/
def BRKINT : Nat := 2

/-- Local-flag bit ISIG (asm-generic termbits). -/
def ISIG : Nat := 1

/-- Local-flag bit ICANON (asm-generic termbits). -/
def ICANON : Nat := 2

/-- Local-flag bit ECHO (asm-generic termbits). -/
def ECHO : Nat := 8

/-- Bitwise complement on 32-bit flag words, as C's tilde on tcflag_t. -/
def cNot (x : Nat) : Nat := 4294967295 ^^^ x

/-- The termios fields that setup_tios touches or that decide break behaviour. -/
structure Termios where
  c_iflag : Nat
  c_lflag : Nat
  vmin : Nat
  vtime : Nat
deriving DecidableEq

/-- setup_tios (console.c 305-337): raw-ify the terminal on fd. The three
booleans stand for isatty(fd), tcgetattr success and tcsetattr success; the
result is the termios installed on the descriptor, or none on failure. -/
def setup_tios (hastty tcgetOk tcsetOk : Bool) (old : Termios) : Option Termios :=
  if hastty = false then none
  else if tcgetOk = false then none
  else
    let t1 : Termios := { old with c_iflag := old.c_iflag &&& cNot IGNBRK }
    let t2 : Termios := { t1 with c_iflag := t1.c_iflag &&& BRKINT }
    let t3 : Termios := { t2 with c_lflag := t2.c_lflag &&& cNot (ECHO ||| ICANON ||| ISIG) }
    let t4 : Termios := { t3 with vmin := 1, vtime := 0 }
    if tcsetOk = false then none else some t4

/-- A break condition generates SIGINT exactly when IGNBRK is clear and
BRKINT is set (POSIX termios semantics, independent of ISIG). -/
def breakSendsInterrupt (t : Termios) : Bool :=
  (t.c_iflag &&& IGNBRK == 0) && (t.c_iflag &&& BRKINT != 0)

/-! ### Client stdin pump: lxc_console_cb_tty_stdin (console.c 632-660) -/

/-- Escape-state of the attach driver tracker (fields escape and saw_escape
of struct lxc_tty_state). -/
structure TtyEsc where
  escape : Int
  saw_escape : Bool
deriving DecidableEq

/-- Outcome of the one-byte read on stdinfd. -/
inductive ReadByte where
  | rerr
  | byte (c : Int)
deriving DecidableEq

/-- lxc_console_cb_tty_stdin (console.c 632-660): one invocation of the
stdin pump. Returns the new escape state, the bytes delivered to
tracker.masterfd, and the handler return code (0 keeps the loop alive,
1 terminates it). writeOk tells whether the write to masterfd succeeds. -/
def lxc_console_cb_tty_stdin (ts : TtyEsc) (rb : ReadByte) (writeOk : Bool) :
    TtyEsc × List Int × Int :=
  match rb with
  | .rerr => (ts, [], 1)
  | .byte c =>
    if c = ts.escape ∧ ts.saw_escape = false then
      ({ ts with saw_escape := true }, [], 0)
    else if c = 113 ∧ ts.saw_escape = true then
      (ts, [], 1)
    else
      let ts1 : TtyEsc := { ts with saw_escape := false }
      if writeOk then (ts1, [c], 0) else (ts1, [], 1)

/-- Feed a byte sequence to the stdin pump one invocation at a time,
collecting for each invocation the bytes written to masterfd and the
handler return code. -/
def runStdinPump (ts : TtyEsc) (evs : List ReadByte) (writeOk : Bool) :
    List (List Int × Int) :=
  match evs with
  | [] => []
  | e :: rest =>
    let r := lxc_console_cb_tty_stdin ts e writeOk
    (r.2.1, r.2.2) :: runStdinPump r.1 rest writeOk

/-! ### Client master pump: lxc_console_cb_tty_master (console.c 662-683) -/

/-- Outcome of a buffered read (rerr is a negative return; rok lists the
bytes obtained, so rok [] is end of file). -/
inductive ReadRes where
  | rerr
  | rok (data : List Int)
deriving DecidableEq

/-- Outcome of a write: werr is a negative return, wok n delivered n bytes. -/
inductive WriteRes where
  | werr
  | wok (n : Nat)
deriving DecidableEq

/-- lxc_console_cb_tty_master (console.c 662-683): read up to 1024 bytes
from the master and write them to tracker.stdoutfd. wr gives the outcome of
the write for a requested byte count. Returns 0 to keep the loop alive,
1 to terminate it. -/
def lxc_console_cb_tty_master (rd : ReadRes) (wr : Nat → WriteRes) : Int :=
  match rd with
  | .rerr => 1
  | .rok data =>
    match wr data.length with
    | .werr => 1
    | .wok w => if w ≠ data.length then 1 else 0

/-! ### Console pump: lxc_console_cb_con (console.c 213-247) -/

/-- The console descriptors that the console pump consults. -/
structure ConsoleFds where
  master : Int
  peer : Int
  log_fd : Int
deriving DecidableEq

/-- Result of one console-pump invocation: the write requests issued
(target descriptor, requested byte count, in order), whether the short-write
warning fired, and the handler return code. -/
structure ConOut where
  events : List (Int × Nat)
  warned : Bool
  ret : Int
deriving DecidableEq

/-- Delivered byte count of a write as the C int w (error maps to -1). -/
def deliv (wres : WriteRes) : Int :=
  match wres with
  | .werr => -1
  | .wok n => (n : Int)

/-- lxc_console_cb_con (console.c 213-247): the container-side pump. fd is
the descriptor that became readable, wr the kernel's outcome for each write
(target fd, requested count). The peer branch forwards to the master; the
master branch forwards to the log (when log_fd is nonnegative) and to the
peer (when peer is nonnegative), each offered the full read count. -/
def lxc_console_cb_con (fd : Int) (cons : ConsoleFds) (rd : ReadRes)
    (wr : Int → Nat → WriteRes) : ConOut :=
  match rd with
  | .rerr => ⟨[], false, 1⟩
  | .rok data =>
    if data.length = 0 then ⟨[], false, 0⟩
    else
      let r := data.length
      let w0 : Int := (r : Int)
      let (ev1, w1) :=
        if fd = cons.peer then ([(cons.master, r)], deliv (wr cons.master r))
        else ([], w0)
      let (ev2, w2) :=
        if fd = cons.master then
          let (evLog, wLog) :=
            if 0 ≤ cons.log_fd then ([(cons.log_fd, r)], deliv (wr cons.log_fd r))
            else ([], w1)
          let (evPeer, wPeer) :=
            if 0 ≤ cons.peer then ([(cons.peer, r)], deliv (wr cons.peer r))
            else ([], wLog)
          (evLog ++ evPeer, wPeer)
        else ([], w1)
      ⟨ev1 ++ ev2, w2 ≠ (r : Int), 0⟩

/-! ### Winsize tracker init: lxc_console_sigwinch_init (console.c 148-190) -/

/-- Process-wide state that sigwinch init and fini touch: the lxc_ttys
registry (node identities, in list order) and the thread signal mask
(a bitmask of blocked signals). -/
structure SigCtx where
  registry : List Int
  mask : Nat
deriving DecidableEq

/-- Bit of SIGWINCH (signal number 28) in a signal mask. -/
def SIGWINCH_BIT : Nat := 2 ^ 27

/-- Kernel outcomes consumed by sigwinch init: whether malloc succeeds,
whether sigprocmask(SIG_BLOCK) fails, and the descriptor returned by
signalfd (none on failure). -/
structure SigEnv where
  mallocOk : Bool
  blockFails : Bool
  sigfdResult : Option Int
deriving DecidableEq

/-- The tracker fields that sigwinch init fills in. -/
structure SigTracker where
  stdinfd : Int
  masterfd : Int
  sigfd : Int
  oldmask : Nat
deriving DecidableEq

/-- lxc_console_sigwinch_init (console.c 148-190): allocate a tracker,
append its node to the lxc_ttys registry, block SIGWINCH saving the prior
mask, and open a signalfd. On sigprocmask failure the node is unlinked with
the mask untouched; on signalfd failure the saved mask is reinstalled and
the node unlinked; both failures free the tracker and return none. -/
def lxc_console_sigwinch_init (ctx : SigCtx) (srcfd dstfd tsid : Int)
    (env : SigEnv) : SigCtx × Option SigTracker :=
  if env.mallocOk = false then (ctx, none)
  else
    let ctx1 : SigCtx := { ctx with registry := ctx.registry ++ [tsid] }
    let oldmask := ctx.mask
    if env.blockFails then
      ({ ctx1 with registry := ctx1.registry.dropLast }, none)
    else
      let ctx2 : SigCtx := { ctx1 with mask := ctx1.mask ||| SIGWINCH_BIT }
      match env.sigfdResult with
      | none =>
        let ctx3 : SigCtx := { ctx2 with mask := oldmask }
        ({ ctx3 with registry := ctx3.registry.dropLast }, none)
      | some fd => (ctx2, some ⟨srcfd, dstfd, fd, oldmask⟩)

/-! ### Attach driver unwind: lxc_console (console.c 690-784) -/

/-- Cleanup actions on the exit paths of lxc_console, in source order:
lxc_mainloop_close, lxc_console_sigwinch_fini, close(masterfd),
close(ttyfd) (the command-channel descriptor), and tcsetattr restoring
the saved stdin termios. -/
inductive CleanupAct where
  | loopClose
  | trackerFini
  | closeMaster
  | closeTty
  | restoreTermios
deriving DecidableEq

/-- Where lxc_console stops: each failing step of the driver, or the two
outcomes after full setup (the mainloop returning an error, or a clean
detach). -/
inductive AttachStage where
  | isattyFail
  | tiosFail
  | cmdFail
  | sigwinchFail
  | loopOpenFail
  | addSigwinchFail
  | addStdinFail
  | addMasterFail
  | loopFail
  | detach
deriving DecidableEq

/-- The cleanup actions lxc_console performs, in order, for each stop point:
the goto chain err4 -> err3 -> err2 -> err1 of console.c 773-781. The two
isatty/setup_tios failures return before anything was acquired. -/
def lxc_console_unwind : AttachStage → List CleanupAct
  | .isattyFail => []
  | .tiosFail => []
  | .cmdFail => [.restoreTermios]
  | .sigwinchFail => [.closeMaster, .closeTty, .restoreTermios]
  | .loopOpenFail => [.trackerFini, .closeMaster, .closeTty, .restoreTermios]
  | .addSigwinchFail => [.loopClose, .trackerFini, .closeMaster, .closeTty, .restoreTermios]
  | .addStdinFail => [.loopClose, .trackerFini, .closeMaster, .closeTty, .restoreTermios]
  | .addMasterFail => [.loopClose, .trackerFini, .closeMaster, .closeTty, .restoreTermios]
  | .loopFail => [.loopClose, .trackerFini, .closeMaster, .closeTty, .restoreTermios]
  | .detach => [.loopClose, .trackerFini, .closeMaster, .closeTty, .restoreTermios]

/-- The full cleanup chain of lxc_console after complete setup. -/
def attachUnwindFull : List CleanupAct :=
  [.loopClose, .trackerFini, .closeMaster, .closeTty, .restoreTermios]

/-- The order asserted by the claim, stated from the spec words: tracker
teardown first, then event-loop close, then the command-channel fd, then
termios restoration of stdin. -/
def claimedUnwindOrder (tr : List CleanupAct) : Prop :=
  tr.indexOf CleanupAct.trackerFini < tr.indexOf CleanupAct.loopClose ∧
  tr.indexOf CleanupAct.loopClose < tr.indexOf CleanupAct.closeTty ∧
  tr.indexOf CleanupAct.closeTty < tr.indexOf CleanupAct.restoreTermios

/-! ### Console state and the proxy pty (console.c 339-403, 480-612) -/

/-- Proxy pty state (struct lxc_pty_info peerpty): descriptors, the busy
marker holding the owning client socket fd or -1, and the kernel name. -/
structure Pty where
  master : Int
  slave : Int
  busy : Int
  name : String
deriving DecidableEq

/-- The source and destination descriptors a winsize tracker of the console
is wired to (the lxc_tty_state fields relevant to the console state). -/
structure TtyTracker where
  stdinfd : Int
  masterfd : Int
deriving DecidableEq

/-- The console of a container configuration (struct lxc_console): the
container pty pair, the peer descriptor, the proxy pty, the tracker, the
saved peer termios (tios, modelled as present or absent) and the log fd. -/
structure Console where
  master : Int
  slave : Int
  name : String
  peer : Int
  peerpty : Pty
  ttyState : Option TtyTracker
  tios : Bool
  log_fd : Int
deriving DecidableEq

/-- Modelled from the spec: the initial console state produced by container
configuration initialization (lxc_conf_init in conf.c, a file outside this
repository slice): unattached peer (-1), proxy pty descriptors and busy
marker -1, no winsize tracker, no saved termios, no log descriptor,
container pty pair not yet created (-1). -/
def initConsole : Console :=
  { master := -1, slave := -1, name := "", peer := -1,
    peerpty := { master := -1, slave := -1, busy := -1, name := "" },
    ttyState := none, tios := false, log_fd := -1 }

/-- lxc_console_peer_proxy_free (console.c 339-352): uninstall the tracker
when present, close both proxy descriptors, reset every proxy field and
clear the peer. -/
def lxc_console_peer_proxy_free (c : Console) : Console :=
  { c with ttyState := none,
           peerpty := { master := -1, slave := -1, busy := -1, name := "" },
           peer := -1 }

/-- Kernel outcomes consumed by the proxy allocation: the descriptors and
name produced by openpty (none on failure), and the success of setup_tios
on the proxy slave and of the sigwinch tracker init. -/
structure ProxyEnv where
  openptyRes : Option (Nat × Nat × String)
  setupTiosOk : Bool
  sigwinchOk : Bool
deriving DecidableEq

/-- lxc_console_peer_proxy_alloc (console.c 354-403): refuse when the
console is not set up, already in use, or already has a tracker; create the
proxy pty; raw-ify its slave; init a tracker on (proxy master, container
master); then set tty_state, peer = peerpty.slave and peerpty.busy = sockfd
together. Every failure after openpty runs lxc_console_peer_proxy_free.
Returns the new console and the C return value. -/
def lxc_console_peer_proxy_alloc (c : Console) (sockfd : Int) (env : ProxyEnv) :
    Console × Int :=
  if c.master < 0 then (c, -1)
  else if c.peerpty.busy ≠ -1 ∨ c.peer ≠ -1 then (c, -1)
  else if c.ttyState.isSome then (c, -1)
  else
    match env.openptyRes with
    | none => (c, -1)
    | some (m, s, nm) =>
      let c1 : Console := { c with peerpty := ⟨(m : Int), (s : Int), c.peerpty.busy, nm⟩ }
      if env.setupTiosOk = false then (lxc_console_peer_proxy_free c1, -1)
      else if env.sigwinchOk = false then (lxc_console_peer_proxy_free c1, -1)
      else
        ({ c1 with ttyState := some ⟨(m : Int), c.master⟩,
                   peer := (s : Int),
                   peerpty := { c1.peerpty with busy := sockfd } }, 0)

/-- Kernel outcomes consumed by lxc_console_peer_default: the descriptor
obtained for the peer path (none when no path and no usable /dev/tty, or
when open fails), isatty on it, tracker init success, success of the tios
malloc, and success of setup_tios on the peer. -/
structure PeerEnv where
  peerFd : Option Nat
  isattyPeer : Bool
  sigwinchOk : Bool
  tiosAllocOk : Bool
  setupTiosOk : Bool
deriving DecidableEq

/-- lxc_console_peer_default (console.c 480-537): open the configured peer
path (or /dev/tty), require it to be a terminal, install a winsize tracker
on (peer, container master) keeping a null tracker on init failure, save
the peer termios and raw-ify the peer. The error paths close the peer and
release the saved termios but leave tty_state as assigned. -/
def lxc_console_peer_default (c : Console) (env : PeerEnv) : Console :=
  match env.peerFd with
  | none => c
  | some fd =>
    let c1 : Console := { c with peer := (fd : Int) }
    if env.isattyPeer = false then { c1 with peer := -1 }
    else
      let ts : Option TtyTracker :=
        if env.sigwinchOk then some ⟨c1.peer, c1.master⟩ else none
      let c2 : Console := { c1 with ttyState := ts }
      if env.tiosAllocOk = false then { c2 with tios := false, peer := -1 }
      else if env.setupTiosOk = false then { c2 with tios := false, peer := -1 }
      else { c2 with tios := true }

/-- lxc_console_delete (console.c 539-557): restore the peer termios when
saved, release it, close peer, master, slave and the log descriptor, and
reset those four fields. tty_state and peerpty are not touched. -/
def lxc_console_delete (c : Console) : Console :=
  { c with tios := false, peer := -1, master := -1, slave := -1, log_fd := -1 }

/-- Kernel and configuration outcomes consumed by lxc_console_create. -/
structure CreateEnv where
  isExecute : Bool
  hasRootfs : Bool
  pathNone : Bool
  openptyRes : Option (Nat × Nat × String)
  fcntlMasterOk : Bool
  fcntlSlaveOk : Bool
  peerEnv : PeerEnv
  logRequested : Bool
  logOpenRes : Option Nat
deriving DecidableEq

/-- lxc_console_create (console.c 559-612): skip for lxc-execute, missing
rootfs or path "none"; create the container pty pair; mark both descriptors
close-on-exec (failure deletes the console); set up the default peer; open
the log when requested (failure deletes the console). -/
def lxc_console_create (c : Console) (env : CreateEnv) : Console × Int :=
  if env.isExecute then (c, 0)
  else if env.hasRootfs = false then (c, 0)
  else if env.pathNone then (c, 0)
  else
    match env.openptyRes with
    | none => (c, -1)
    | some (m, s, nm) =>
      let c1 : Console := { c with master := (m : Int), slave := (s : Int), name := nm }
      if env.fcntlMasterOk = false then (lxc_console_delete c1, -1)
      else if env.fcntlSlaveOk = false then (lxc_console_delete c1, -1)
      else
        let c2 := lxc_console_peer_default c1 env.peerEnv
        if env.logRequested then
          match env.logOpenRes with
          | none => (lxc_console_delete c2, -1)
          | some lfd => ({ c2 with log_fd := (lfd : Int) }, 0)
        else (c2, 0)

/-! ### Allocator and free (console.c 405-478) -/

/-- One tty slot of tty_info (struct lxc_pty_info): the busy marker (owning
client socket fd, 0 when free) and the slot master descriptor. -/
structure Slot where
  busy : Int
  master : Int
deriving DecidableEq

/-- The container configuration state the allocator touches: the tty slots
and the console. -/
structure Conf where
  ttys : List Slot
  console : Console
deriving DecidableEq

/-- Slot at 0-based index i (out of range reads give a dummy slot; every
use is guarded by an index bound). -/
def slotAt (l : List Slot) (i : Nat) : Slot :=
  l.getD i { busy := 0, master := 0 }

/-- Write the busy marker of the slot at 0-based index i. -/
def setBusy : List Slot → Nat → Int → List Slot
  | [], _, _ => []
  | s :: rest, 0, fd => { s with busy := fd } :: rest
  | s :: rest, n + 1, fd => s :: setBusy rest n fd

/-- The scan loop of console.c 438-440: the first 1-based index whose slot
has busy == 0, or length + 1 when every slot is busy. -/
def scanFree : List Slot → Nat
  | [] => 1
  | s :: rest => if s.busy = 0 then 1 else scanFree rest + 1

/-- lxc_console_allocate (console.c 412-453): ttyreq 0 requests the console
through the proxy allocation; positive ttyreq requests that specific slot;
negative ttyreq scans for the first free slot and stores its 1-based index
into ttyreq. Returns the new configuration, the new ttyreq value and the
master descriptor (-1 on failure). -/
def lxc_console_allocate (conf : Conf) (sockfd : Int) (ttyreq : Int)
    (env : ProxyEnv) : Conf × Int × Int :=
  if ttyreq = 0 then
    let pa := lxc_console_peer_proxy_alloc conf.console sockfd env
    if pa.2 < 0 then ({ conf with console := pa.1 }, ttyreq, -1)
    else ({ conf with console := pa.1 }, ttyreq, pa.1.peerpty.master)
  else if 0 < ttyreq then
    if (conf.ttys.length : Int) < ttyreq then (conf, ttyreq, -1)
    else if (slotAt conf.ttys (ttyreq.toNat - 1)).busy ≠ 0 then (conf, ttyreq, -1)
    else ({ conf with ttys := setBusy conf.ttys (ttyreq.toNat - 1) sockfd }, ttyreq,
          (slotAt conf.ttys (ttyreq.toNat - 1)).master)
  else
    let ttynum := scanFree conf.ttys
    if conf.ttys.length < ttynum then (conf, ttyreq, -1)
    else ({ conf with ttys := setBusy conf.ttys (ttynum - 1) sockfd }, (ttynum : Int),
          (slotAt conf.ttys (ttynum - 1)).master)

/-- Side effects of lxc_console_free beyond the state update: deregistering
the proxy slave from the loop and running the proxy teardown. -/
inductive FreeAct where
  | delHandler (slavefd : Int)
  | proxyTeardown
deriving DecidableEq

/-- The body of the slot loop of lxc_console_free (console.c 469-472):
clear the busy marker when it equals fd. -/
def freeSlot (fd : Int) (s : Slot) : Slot :=
  if s.busy = fd then { s with busy := 0 } else s

/-- lxc_console_free (console.c 463-478): clear the busy marker of every
slot owned by fd; when the proxy busy marker equals fd, deregister the
proxy slave from the loop and run lxc_console_peer_proxy_free. -/
def lxc_console_free (conf : Conf) (fd : Int) : Conf × List FreeAct :=
  let ttys1 := conf.ttys.map (freeSlot fd)
  if conf.console.peerpty.busy = fd then
    ({ ttys := ttys1, console := lxc_console_peer_proxy_free conf.console },
     [FreeAct.delHandler conf.console.peerpty.slave, FreeAct.proxyTeardown])
  else
    ({ ttys := ttys1, console := conf.console }, [])

/-- The console invariant as the claim states it: the proxy busy marker is
nonnegative exactly when the peer equals the proxy slave and a winsize
tracker exists. -/
def consoleInv (c : Console) : Prop :=
  0 ≤ c.peerpty.busy ↔ (c.peer = c.peerpty.slave ∧ c.ttyState.isSome = true)

/-- The console invariant strengthened to require the proxy slave to be a
real descriptor: the proxy busy marker is nonnegative exactly when the peer
equals the proxy slave, that slave is nonnegative, and a tracker exists. -/
def consoleInvFixed (c : Console) : Prop :=
  0 ≤ c.peerpty.busy ↔
    (c.peer = c.peerpty.slave ∧ 0 ≤ c.peerpty.slave ∧ c.ttyState.isSome = true)

instance (c : Console) : Decidable (consoleInv c) := by
  unfold consoleInv; infer_instance

instance (c : Console) : Decidable (consoleInvFixed c) := by
  unfold consoleInvFixed; infer_instance

/-! ### C1 -/

/-- C1: with escape byte 1 and saw_escape initially false, feeding
[0x01, 0x01, 0x78, 0x01, 0x71] to the stdin pump one byte per invocation
writes exactly the two bytes 0x01 then 0x78 to tracker.masterfd, every
invocation before the last returns 0 (keep the loop alive), and the final
invocation returns 1 (terminate) without writing. -/
theorem stdin_pump_escape_sequence :
    runStdinPump ⟨1, false⟩
        [ReadByte.byte 1, ReadByte.byte 1, ReadByte.byte 120,
         ReadByte.byte 1, ReadByte.byte 113] true =
      [([], 0), ([1], 0), ([120], 0), ([], 0), ([], 1)] ∧
    List.flatten (List.map Prod.fst (runStdinPump ⟨1, false⟩
        [ReadByte.byte 1, ReadByte.byte 1, ReadByte.byte 120,
         ReadByte.byte 1, ReadByte.byte 113] true)) = [1, 120] := by
  exact ⟨rfl, rfl⟩

/-! ### C2 -/

/-- C2: evaluated on a tty whose termios has BRKINT set (c_iflag = 0x502 =
BRKINT|ICRNL|IXON, c_lflag = 0x8A3B), setup_tios succeeds and does clear
ECHO, ICANON, ISIG, IGNBRK and set VMIN=1, VTIME=0, but the surviving
BRKINT with IGNBRK clear means a break condition generates SIGINT, against
the claim that breaks do not generate an interrupt. -/
theorem setup_tios_break_interrupt_bug :
    setup_tios true true true ⟨1282, 35387, 0, 0⟩ = some ⟨2, 35376, 1, 0⟩ ∧
    (2 : Nat) &&& IGNBRK = 0 ∧
    (35376 : Nat) &&& (ECHO ||| ICANON ||| ISIG) = 0 ∧
    breakSendsInterrupt ⟨2, 35376, 1, 0⟩ = true := by
  refine ⟨?_, by decide, by decide, by decide⟩
  decide

/-! ### C3 -/

/-- C3 counterexample: on end of file (read count 0) the client-master-pump
issues a zero-byte write; when that write returns 0 the handler returns 0
(keep the loop alive), not the terminate code 1 the claim requires. -/
theorem tty_master_eof_keeps_loop :
    lxc_console_cb_tty_master (ReadRes.rok []) (fun _ => WriteRes.wok 0) = 0 ∧
    lxc_console_cb_tty_master (ReadRes.rok []) (fun _ => WriteRes.wok 0) ≠ 1 := by
  exact ⟨rfl, by decide⟩

/-- C3 (amended): the client-master-pump returns the terminate code exactly
when the read errs, or the write to tracker.stdoutfd errs or delivers a
byte count different from the read count; EOF with a successful zero-byte
write keeps the loop alive. -/
theorem tty_master_terminate_iff (rd : ReadRes) (wr : Nat → WriteRes) :
    lxc_console_cb_tty_master rd wr = 1 ↔
      (rd = ReadRes.rerr ∨
       ∃ data, rd = ReadRes.rok data ∧
         (wr data.length = WriteRes.werr ∨
          ∃ n, wr data.length = WriteRes.wok n ∧ n ≠ data.length)) := by
  cases rd with
  | rerr => simp [lxc_console_cb_tty_master]
  | rok data =>
    cases h : wr data.length with
    | werr => simp [lxc_console_cb_tty_master, h]
    | wok n =>
      by_cases hn : n = data.length
      · subst hn
        simp [lxc_console_cb_tty_master, h]
      · simp [lxc_console_cb_tty_master, h, hn]

/-! ### C4 -/

/-- C4 counterexample: on the error exit taken when the mainloop returns an
error (full setup), the driver runs the event-loop close before the tracker
teardown, so the claimed order (tracker teardown first, then event-loop
close, then the command-channel fd, then termios restoration) does not
describe the trace. -/
theorem attach_unwind_order_counterexample :
    lxc_console_unwind AttachStage.loopFail = attachUnwindFull ∧
    ¬ claimedUnwindOrder (lxc_console_unwind AttachStage.loopFail) := by
  refine ⟨rfl, ?_⟩
  unfold claimedUnwindOrder
  decide

/-- C4 (amended): after full setup every exit path of lxc_console unwinds
as event-loop close, then tracker teardown, then close of the master fd and
the command-channel fd, then termios restoration of stdin; every
partial-setup failure performs a suffix of that chain, releasing only the
already-acquired resources in the same relative order. -/
theorem attach_unwind_reverse_acquisition :
    (∀ s, ∃ pre, pre ++ lxc_console_unwind s = attachUnwindFull) ∧
    lxc_console_unwind AttachStage.detach = attachUnwindFull ∧
    lxc_console_unwind AttachStage.loopFail = attachUnwindFull ∧
    lxc_console_unwind AttachStage.addMasterFail = attachUnwindFull ∧
    lxc_console_unwind AttachStage.addStdinFail = attachUnwindFull ∧
    lxc_console_unwind AttachStage.addSigwinchFail = attachUnwindFull := by
  refine ⟨?_, rfl, rfl, rfl, rfl, rfl⟩
  intro s
  cases s
  case isattyFail => exact ⟨attachUnwindFull, by decide⟩
  case tiosFail => exact ⟨attachUnwindFull, by decide⟩
  case cmdFail =>
    exact ⟨[CleanupAct.loopClose, CleanupAct.trackerFini,
            CleanupAct.closeMaster, CleanupAct.closeTty], rfl⟩
  case sigwinchFail => exact ⟨[CleanupAct.loopClose, CleanupAct.trackerFini], rfl⟩
  case loopOpenFail => exact ⟨[CleanupAct.loopClose], rfl⟩
  case addSigwinchFail => exact ⟨[], rfl⟩
  case addStdinFail => exact ⟨[], rfl⟩
  case addMasterFail => exact ⟨[], rfl⟩
  case loopFail => exact ⟨[], rfl⟩
  case detach => exact ⟨[], rfl⟩

/-! ### C5 -/

theorem slotAt_cons_zero (s : Slot) (rest : List Slot) : slotAt (s :: rest) 0 = s := rfl

theorem slotAt_cons_succ (s : Slot) (rest : List Slot) (n : Nat) :
    slotAt (s :: rest) (n + 1) = slotAt rest n := rfl

theorem scanFree_pos (l : List Slot) : 1 ≤ scanFree l := by
  cases l with
  | nil => simp [scanFree]
  | cons s rest => unfold scanFree; split <;> omega

theorem scanFree_found (l : List Slot) (h : scanFree l ≤ l.length) :
    (slotAt l (scanFree l - 1)).busy = 0 ∧
    ∀ j, j < scanFree l - 1 → (slotAt l j).busy ≠ 0 := by
  induction l with
  | nil => simp [scanFree] at h
  | cons s rest ih =>
    by_cases hb : s.busy = 0
    · refine ⟨?_, ?_⟩
      · simp [scanFree, hb, slotAt_cons_zero]
      · intro j hj
        simp [scanFree, hb] at hj
    · have hscan : scanFree (s :: rest) = scanFree rest + 1 := by
        simp [scanFree, hb]
      have hrest : scanFree rest ≤ rest.length := by
        rw [hscan] at h
        simpa using h
      obtain ⟨h1, h2⟩ := ih hrest
      have hpos := scanFree_pos rest
      refine ⟨?_, ?_⟩
      · rw [hscan]
        have hix : scanFree rest + 1 - 1 = (scanFree rest - 1) + 1 := by omega
        rw [hix, slotAt_cons_succ]
        exact h1
      · intro j hj
        rw [hscan] at hj
        cases j with
        | zero => simpa [slotAt_cons_zero] using hb
        | succ j' =>
          rw [slotAt_cons_succ]
          exact h2 j' (by omega)

theorem scanFree_all_busy (l : List Slot) (h : l.length < scanFree l) :
    ∀ i, i < l.length → (slotAt l i).busy ≠ 0 := by
  induction l with
  | nil => intro i hi; simp at hi
  | cons s rest ih =>
    by_cases hb : s.busy = 0
    · simp [scanFree, hb] at h
    · have hscan : scanFree (s :: rest) = scanFree rest + 1 := by
        simp [scanFree, hb]
      rw [hscan] at h
      simp only [List.length_cons] at h
      intro i hi
      cases i with
      | zero => simpa [slotAt_cons_zero] using hb
      | succ i' =>
        rw [slotAt_cons_succ]
        exact ih (by omega) i' (by simpa using hi)

theorem scanFree_exists_free (l : List Slot)
    (h : ∃ i, i < l.length ∧ (slotAt l i).busy = 0) : scanFree l ≤ l.length := by
  by_contra hc
  push_neg at hc
  obtain ⟨i, hi, hfree⟩ := h
  exact scanFree_all_busy l hc i hi hfree

/-- C5: with a negative ttyreq, the allocator picks the first slot (in
increasing index order) whose busy field is 0, marks it busy with the
client socket fd, stores the 1-based index into ttyreq and returns the
slot's master; when every slot is busy it returns -1 with the slots and
ttyreq unchanged. -/
theorem allocate_any_tty (conf : Conf) (sockfd ttyreq : Int) (env : ProxyEnv)
    (hreq : ttyreq < 0) :
    ((∃ i, i < conf.ttys.length ∧ (slotAt conf.ttys i).busy = 0) →
      ∃ k, k < conf.ttys.length ∧ (slotAt conf.ttys k).busy = 0 ∧
        (∀ j, j < k → (slotAt conf.ttys j).busy ≠ 0) ∧
        lxc_console_allocate conf sockfd ttyreq env =
          ({ conf with ttys := setBusy conf.ttys k sockfd }, ((k + 1 : Nat) : Int),
           (slotAt conf.ttys k).master)) ∧
    ((∀ i, i < conf.ttys.length → (slotAt conf.ttys i).busy ≠ 0) →
      lxc_console_allocate conf sockfd ttyreq env = (conf, ttyreq, -1)) := by
  have h0 : ¬ ttyreq = 0 := by omega
  have h1 : ¬ 0 < ttyreq := by omega
  constructor
  · intro hex
    have hle := scanFree_exists_free conf.ttys hex
    obtain ⟨hfree, hmin⟩ := scanFree_found conf.ttys hle
    have hpos := scanFree_pos conf.ttys
    refine ⟨scanFree conf.ttys - 1, by omega, hfree, fun j hj => hmin j (by omega), ?_⟩
    simp only [lxc_console_allocate, if_neg h0, if_neg h1]
    rw [if_neg (by omega : ¬ conf.ttys.length < scanFree conf.ttys)]
    have hix : scanFree conf.ttys - 1 + 1 = scanFree conf.ttys := by omega
    rw [hix]
  · intro hall
    have hgt : conf.ttys.length < scanFree conf.ttys := by
      by_contra hc
      push_neg at hc
      obtain ⟨hfree, -⟩ := scanFree_found conf.ttys hc
      have hpos := scanFree_pos conf.ttys
      exact hall _ (by omega) hfree
    simp only [lxc_console_allocate, if_neg h0, if_neg h1]
    rw [if_pos hgt]

/-- Concrete configuration for exercising the any-tty allocation: slot 1
busy (owned by client 7), slot 2 free. -/
def witnessConfC5 : Conf :=
  ⟨[⟨7, 100⟩, ⟨0, 101⟩], initConsole⟩

theorem allocate_any_tty_witness :
    (-1 : Int) < 0 ∧
    (((∃ i, i < witnessConfC5.ttys.length ∧ (slotAt witnessConfC5.ttys i).busy = 0) →
      ∃ k, k < witnessConfC5.ttys.length ∧ (slotAt witnessConfC5.ttys k).busy = 0 ∧
        (∀ j, j < k → (slotAt witnessConfC5.ttys j).busy ≠ 0) ∧
        lxc_console_allocate witnessConfC5 9 (-1) ⟨none, true, true⟩ =
          ({ witnessConfC5 with ttys := setBusy witnessConfC5.ttys k 9 },
           ((k + 1 : Nat) : Int), (slotAt witnessConfC5.ttys k).master)) ∧
    ((∀ i, i < witnessConfC5.ttys.length → (slotAt witnessConfC5.ttys i).busy ≠ 0) →
      lxc_console_allocate witnessConfC5 9 (-1) ⟨none, true, true⟩ =
        (witnessConfC5, -1, -1))) :=
  ⟨by decide, allocate_any_tty witnessConfC5 9 (-1) ⟨none, true, true⟩ (by decide)⟩

/-! ### C6 -/

theorem dropLast_append_single (l : List Int) (a : Int) : (l ++ [a]).dropLast = l := by
  simp

/-- C6: when sigwinch-tracker initialization fails (sigprocmask failing to
block SIGWINCH, or signalfd failing), the registry and the signal mask end
as they started and no tracker is returned: the insertion is rolled back,
the mask is untouched in the first case and restored in the second, and the
tracker memory is released. -/
theorem sigwinch_init_rollback (ctx : SigCtx) (srcfd dstfd tsid : Int) (env : SigEnv)
    (h : env.blockFails = true ∨ env.sigfdResult = none) :
    lxc_console_sigwinch_init ctx srcfd dstfd tsid env = (ctx, none) := by
  by_cases hm : env.mallocOk = false
  · simp [lxc_console_sigwinch_init, hm]
  · by_cases hb : env.blockFails = true
    · simp [lxc_console_sigwinch_init, hm, hb, dropLast_append_single]
    · rcases h with h' | h'
      · exact absurd h' hb
      · simp [lxc_console_sigwinch_init, hm, hb, h', dropLast_append_single]

theorem sigwinch_init_rollback_witness :
    ((⟨true, true, some 11⟩ : SigEnv).blockFails = true ∨
      (⟨true, true, some 11⟩ : SigEnv).sigfdResult = none) ∧
    lxc_console_sigwinch_init ⟨[5], 0⟩ 0 4 5 ⟨true, true, some 11⟩ = (⟨[5], 0⟩, none) :=
  ⟨Or.inl rfl,
   sigwinch_init_rollback ⟨[5], 0⟩ 0 4 5 ⟨true, true, some 11⟩ (Or.inl rfl)⟩

/-! ### C7 -/

/-- C7: in the console pump, when the readable fd is the container master
and the read delivered r > 0 bytes, the write request to the log (when
log_fd is present) carries the full count r, the write request to the peer
(when peer is present) carries the full count r, and the issued requests do
not depend on any write outcome, so a short peer write never truncates what
is offered to the log. -/
theorem con_pump_log_peer_full_buffer (cons : ConsoleFds) (data : List Int)
    (wr wr' : Int → Nat → WriteRes) (hlen : 0 < data.length) :
    (0 ≤ cons.log_fd →
      (cons.log_fd, data.length) ∈
        (lxc_console_cb_con cons.master cons (ReadRes.rok data) wr).events) ∧
    (0 ≤ cons.peer →
      (cons.peer, data.length) ∈
        (lxc_console_cb_con cons.master cons (ReadRes.rok data) wr).events) ∧
    (lxc_console_cb_con cons.master cons (ReadRes.rok data) wr).events =
      (lxc_console_cb_con cons.master cons (ReadRes.rok data) wr').events := by
  have hne : ¬ data.length = 0 := by omega
  by_cases hmp : cons.master = cons.peer <;>
    by_cases hlog : 0 ≤ cons.log_fd <;>
      by_cases hpeer : 0 ≤ cons.peer <;>
        simp [lxc_console_cb_con, hne, hmp, hlog, hpeer]

theorem con_pump_log_peer_full_buffer_witness :
    0 < ([65] : List Int).length ∧
    ((0 ≤ (⟨4, 6, 8⟩ : ConsoleFds).log_fd →
      ((⟨4, 6, 8⟩ : ConsoleFds).log_fd, ([65] : List Int).length) ∈
        (lxc_console_cb_con 4 ⟨4, 6, 8⟩ (ReadRes.rok [65]) (fun _ _ => WriteRes.wok 0)).events) ∧
    (0 ≤ (⟨4, 6, 8⟩ : ConsoleFds).peer →
      ((⟨4, 6, 8⟩ : ConsoleFds).peer, ([65] : List Int).length) ∈
        (lxc_console_cb_con 4 ⟨4, 6, 8⟩ (ReadRes.rok [65]) (fun _ _ => WriteRes.wok 0)).events) ∧
    (lxc_console_cb_con 4 ⟨4, 6, 8⟩ (ReadRes.rok [65]) (fun _ _ => WriteRes.wok 0)).events =
      (lxc_console_cb_con 4 ⟨4, 6, 8⟩ (ReadRes.rok [65]) (fun _ _ => WriteRes.werr)).events) :=
  ⟨by decide,
   con_pump_log_peer_full_buffer ⟨4, 6, 8⟩ [65]
     (fun _ _ => WriteRes.wok 0) (fun _ _ => WriteRes.werr) (by decide)⟩

/-! ### C8 -/

theorem freeSlot_idem (fd : Int) (s : Slot) :
    freeSlot fd (freeSlot fd s) = freeSlot fd s := by
  unfold freeSlot
  by_cases hb : s.busy = fd
  · by_cases h0 : (0 : Int) = fd <;> simp [hb, h0]
  · simp [hb]

theorem freeSlots_idem (fd : Int) (l : List Slot) :
    (l.map (freeSlot fd)).map (freeSlot fd) = l.map (freeSlot fd) := by
  induction l with
  | nil => rfl
  | cons s rest ih =>
    simp only [List.map_cons, ih, freeSlot_idem]

/-- C8: for every configuration and every client fd (a nonnegative socket
descriptor), a second application of lxc_console_free changes nothing: it
returns the state produced by the first application unchanged, alters no
slot's busy field, and performs no proxy teardown action. -/
theorem free_idempotent (conf : Conf) (fd : Int) (h : 0 ≤ fd) :
    lxc_console_free (lxc_console_free conf fd).1 fd =
      ((lxc_console_free conf fd).1, []) := by
  have hne : ¬ ((-1 : Int) = fd) := by omega
  by_cases hb : conf.console.peerpty.busy = fd
  · simp [lxc_console_free, hb, lxc_console_peer_proxy_free, hne, freeSlots_idem,
          freeSlot_idem]
  · simp [lxc_console_free, hb, freeSlots_idem, freeSlot_idem]

theorem free_idempotent_witness :
    (0 : Int) ≤ 3 ∧
    lxc_console_free (lxc_console_free ⟨[⟨3, 100⟩], initConsole⟩ 3).1 3 =
      ((lxc_console_free ⟨[⟨3, 100⟩], initConsole⟩ 3).1, []) :=
  ⟨by decide, free_idempotent ⟨[⟨3, 100⟩], initConsole⟩ 3 (by decide)⟩

/-! ### C10 -/

/-- C10: when the console proxy is unattached (peerpty.busy = -1, its
sentinel), lxc_console_free with fd = -1 matches the console branch and
executes the full proxy teardown: it deregisters peerpty.slave from the
loop and runs lxc_console_peer_proxy_free (resetting peer and every proxy
field), even though no allocation by that fd exists; the fd argument is not
restricted to nonnegative client socket descriptors. -/
theorem free_unattached_console_teardown (conf : Conf)
    (h : conf.console.peerpty.busy = -1) :
    lxc_console_free conf (-1) =
      ({ ttys := conf.ttys.map (freeSlot (-1)),
         console := lxc_console_peer_proxy_free conf.console },
       [FreeAct.delHandler conf.console.peerpty.slave, FreeAct.proxyTeardown]) := by
  simp [lxc_console_free, h]

theorem free_unattached_console_teardown_witness :
    (⟨[], initConsole⟩ : Conf).console.peerpty.busy = -1 ∧
    lxc_console_free ⟨[], initConsole⟩ (-1) =
      ({ ttys := ([] : List Slot).map (freeSlot (-1)),
         console := lxc_console_peer_proxy_free initConsole },
       [FreeAct.delHandler initConsole.peerpty.slave, FreeAct.proxyTeardown]) :=
  ⟨rfl, free_unattached_console_teardown ⟨[], initConsole⟩ rfl⟩

/-! ### C9 -/

/-- A creation environment in which the console pty pair and the default
peer open succeed but raw-ifying the peer fails: lxc_console_create still
returns success, yet lxc_console_peer_default has reset peer to -1 while
leaving the installed tracker in tty_state. -/
def badCreateEnv : CreateEnv :=
  { isExecute := false, hasRootfs := true, pathNone := false,
    openptyRes := some (4, 5, "pts4"), fcntlMasterOk := true, fcntlSlaveOk := true,
    peerEnv := { peerFd := some 6, isattyPeer := true, sigwinchOk := true,
                 tiosAllocOk := true, setupTiosOk := false },
    logRequested := false, logOpenRes := none }

/-- C9 counterexample: after a successful console creation in which the
peer raw-ify step failed, the console has peer = -1 = peerpty.slave and a
live winsize tracker while peerpty.busy = -1, so the claimed invariant
(busy nonnegative iff peer equals the proxy slave and a tracker exists)
is false at this reachable state. -/
theorem console_inv_counterexample :
    (lxc_console_create initConsole badCreateEnv).2 = 0 ∧
    ¬ consoleInv (lxc_console_create initConsole badCreateEnv).1 := by
  exact ⟨rfl, by decide⟩

theorem consoleInvFixed_proxy_free (c : Console) :
    consoleInvFixed (lxc_console_peer_proxy_free c) := by
  unfold consoleInvFixed lxc_console_peer_proxy_free
  simp

theorem consoleInvFixed_proxy_alloc (c : Console) (sockfd : Int) (env : ProxyEnv)
    (hs : 0 ≤ sockfd) (hc : consoleInvFixed c) :
    consoleInvFixed (lxc_console_peer_proxy_alloc c sockfd env).1 := by
  unfold lxc_console_peer_proxy_alloc
  by_cases h1 : c.master < 0
  · simpa [h1] using hc
  · by_cases h2 : c.peerpty.busy ≠ -1 ∨ c.peer ≠ -1
    · simpa [h1, h2] using hc
    · by_cases h3 : c.ttyState.isSome
      · simpa [h1, h2, h3] using hc
      · cases hop : env.openptyRes with
        | none => simpa [h1, h2, h3, hop] using hc
        | some tpl =>
          obtain ⟨m, s, nm⟩ := tpl
          by_cases h4 : env.setupTiosOk = false
          · simp [h1, h2, h3, hop, h4, consoleInvFixed_proxy_free]
          · by_cases h5 : env.sigwinchOk = false
            · simp [h1, h2, h3, hop, h4, h5, consoleInvFixed_proxy_free]
            · simp only [h1, h2, h3, hop, h4, h5]
              unfold consoleInvFixed
              simp [hs]

theorem proxy_alloc_success_fields (c : Console) (sockfd : Int) (env : ProxyEnv)
    (hret : (lxc_console_peer_proxy_alloc c sockfd env).2 = 0) :
    (lxc_console_peer_proxy_alloc c sockfd env).1.ttyState.isSome = true ∧
    (lxc_console_peer_proxy_alloc c sockfd env).1.peer =
      (lxc_console_peer_proxy_alloc c sockfd env).1.peerpty.slave ∧
    (lxc_console_peer_proxy_alloc c sockfd env).1.peerpty.busy = sockfd := by
  unfold lxc_console_peer_proxy_alloc at hret ⊢
  by_cases h1 : c.master < 0
  · simp [h1] at hret
  · by_cases h2 : c.peerpty.busy ≠ -1 ∨ c.peer ≠ -1
    · simp [h1, h2] at hret
    · by_cases h3 : c.ttyState.isSome
      · simp [h1, h2, h3] at hret
      · cases hop : env.openptyRes with
        | none => simp [h1, h2, h3, hop] at hret
        | some tpl =>
          obtain ⟨m, s, nm⟩ := tpl
          by_cases h4 : env.setupTiosOk = false
          · simp [h1, h2, h3, hop, h4] at hret
          · by_cases h5 : env.sigwinchOk = false
            · simp [h1, h2, h3, hop, h4, h5] at hret
            · simp [h1, h2, h3, hop, h4, h5]

theorem consoleInvFixed_free (conf : Conf) (fd : Int)
    (hc : consoleInvFixed conf.console) :
    consoleInvFixed ((lxc_console_free conf fd).1).console := by
  unfold lxc_console_free
  by_cases hb : conf.console.peerpty.busy = fd
  · simp [hb, consoleInvFixed_proxy_free]
  · simpa [hb] using hc

theorem consoleInvFixed_allocate (conf : Conf) (sockfd ttyreq : Int) (env : ProxyEnv)
    (hs : 0 ≤ sockfd) (hc : consoleInvFixed conf.console) :
    consoleInvFixed ((lxc_console_allocate conf sockfd ttyreq env).1).console := by
  unfold lxc_console_allocate
  by_cases h0 : ttyreq = 0
  · by_cases hpa : (lxc_console_peer_proxy_alloc conf.console sockfd env).2 < 0
    · simp [h0, hpa, consoleInvFixed_proxy_alloc conf.console sockfd env hs hc]
    · simp [h0, hpa, consoleInvFixed_proxy_alloc conf.console sockfd env hs hc]
  · by_cases h1 : 0 < ttyreq
    · by_cases h2 : (conf.ttys.length : Int) < ttyreq
      · simpa [h0, h1, h2] using hc
      · by_cases h3 : (slotAt conf.ttys (ttyreq.toNat - 1)).busy ≠ 0
        · simpa [h0, h1, h2, h3] using hc
        · simpa [h0, h1, h2, h3] using hc
    · by_cases h2 : conf.ttys.length < scanFree conf.ttys
      · simpa [h0, h1, h2] using hc
      · simpa [h0, h1, h2] using hc

theorem consoleInvFixed_delete (c : Console) : (lxc_console_delete c).peerpty = c.peerpty :=
  rfl

theorem peer_default_peerpty (c : Console) (env : PeerEnv) :
    (lxc_console_peer_default c env).peerpty = c.peerpty := by
  rcases env with ⟨pf, ia, sw, ta, st⟩
  cases pf <;> cases ia <;> cases sw <;> cases ta <;> cases st <;> rfl

theorem create_peerpty (c : Console) (env : CreateEnv) :
    (lxc_console_create c env).1.peerpty = c.peerpty := by
  unfold lxc_console_create
  by_cases h1 : env.isExecute
  · simp [h1]
  · by_cases h2 : env.hasRootfs = false
    · simp [h1, h2]
    · by_cases h3 : env.pathNone
      · simp [h1, h2, h3]
      · cases hop : env.openptyRes with
        | none => simp [h1, h2, h3, hop]
        | some tpl =>
          obtain ⟨m, s, nm⟩ := tpl
          by_cases h4 : env.fcntlMasterOk = false
          · simp [h1, h2, h3, hop, h4, consoleInvFixed_delete]
          · by_cases h5 : env.fcntlSlaveOk = false
            · simp [h1, h2, h3, hop, h4, h5, consoleInvFixed_delete]
            · by_cases h6 : env.logRequested
              · cases hlo : env.logOpenRes with
                | none =>
                  simp [h1, h2, h3, hop, h4, h5, h6, hlo, consoleInvFixed_delete,
                        peer_default_peerpty]
                | some lfd =>
                  simp [h1, h2, h3, hop, h4, h5, h6, hlo, peer_default_peerpty]
              · simp [h1, h2, h3, hop, h4, h5, h6, peer_default_peerpty]

theorem consoleInvFixed_create (env : CreateEnv) :
    consoleInvFixed (lxc_console_create initConsole env).1 := by
  have hp := create_peerpty initConsole env
  unfold consoleInvFixed
  rw [hp]
  simp [initConsole]

/-- C9 (amended): the invariant strengthened with a nonnegative proxy slave
(peerpty.busy nonnegative iff peer = peerpty.slave, peerpty.slave is a real
descriptor, and a winsize tracker exists) holds after console creation from
the initial configuration state for every environment, is preserved by
proxy allocation (for a client socket fd), by every allocate and by every
free; proxy allocation on success sets tty_state, peer = peerpty.slave and
peerpty.busy = client fd together, and proxy teardown clears all three
together. -/
theorem console_inv_preserved :
    (∀ env, consoleInvFixed (lxc_console_create initConsole env).1) ∧
    (∀ c sockfd env, 0 ≤ sockfd → consoleInvFixed c →
      consoleInvFixed (lxc_console_peer_proxy_alloc c sockfd env).1) ∧
    (∀ c sockfd env, (lxc_console_peer_proxy_alloc c sockfd env).2 = 0 →
      (lxc_console_peer_proxy_alloc c sockfd env).1.ttyState.isSome = true ∧
      (lxc_console_peer_proxy_alloc c sockfd env).1.peer =
        (lxc_console_peer_proxy_alloc c sockfd env).1.peerpty.slave ∧
      (lxc_console_peer_proxy_alloc c sockfd env).1.peerpty.busy = sockfd) ∧
    (∀ c : Console, consoleInvFixed (lxc_console_peer_proxy_free c) ∧
      (lxc_console_peer_proxy_free c).ttyState = none ∧
      (lxc_console_peer_proxy_free c).peer = -1 ∧
      (lxc_console_peer_proxy_free c).peerpty.busy = -1) ∧
    (∀ conf fd, consoleInvFixed conf.console →
      consoleInvFixed ((lxc_console_free conf fd).1).console) ∧
    (∀ conf sockfd ttyreq env, 0 ≤ sockfd → consoleInvFixed conf.console →
      consoleInvFixed ((lxc_console_allocate conf sockfd ttyreq env).1).console) :=
  ⟨consoleInvFixed_create,
   consoleInvFixed_proxy_alloc,
   proxy_alloc_success_fields,
   fun c => ⟨consoleInvFixed_proxy_free c, rfl, rfl, rfl⟩,
   consoleInvFixed_free,
   consoleInvFixed_allocate⟩

theorem console_inv_preserved_witness :
    (0 : Int) ≤ 3 ∧ consoleInvFixed initConsole ∧
    consoleInvFixed
      (lxc_console_peer_proxy_alloc initConsole 3 ⟨some (4, 5, "p"), true, true⟩).1 :=
  ⟨by decide, by decide,
   console_inv_preserved.2.1 initConsole 3 ⟨some (4, 5, "p"), true, true⟩
     (by decide) (by decide)⟩
